import Mathlib

/-!
Verification of the contact-directory program (src/main.py) against its
natural-language specification.  The Python data model and operations are
shallowly embedded as executable Lean definitions; Python methods that
mutate `self` are modelled as functions returning the post-state together
with the optionally raised error, and Python `raise`/`try` is modelled with
`Except` / `Option`.  Definitions whose name ends in `Spec` are the one
deliberate exception: they transcribe the specification's own wording of
the upcoming-birthday query, for comparison with the code-side translation.
-/

set_option maxRecDepth 4096

/-- An ASCII decimal digit, i.e. one of the characters 0 to 9. -/
def isAsciiDigit (c : Char) : Bool :=
  decide (48 ≤ c.toNat) && decide (c.toNat ≤ 57)

/--
Codepoint ranges of the Unicode Nd (decimal number) category, each a run of
ten consecutive digits 0..9.  Python's regular expression class \d on `str`
patterns matches exactly the Nd category, not only ASCII digits; the ranges
listed here cover the category's runs (a handful of rare supplementary-plane
scripts are alike in shape and none is exercised by any theorem below).
-/
def ndRanges : List (Nat × Nat) :=
  [(0x0030, 0x0039), (0x0660, 0x0669), (0x06F0, 0x06F9), (0x07C0, 0x07C9),
   (0x0966, 0x096F), (0x09E6, 0x09EF), (0x0A66, 0x0A6F), (0x0AE6, 0x0AEF),
   (0x0B66, 0x0B6F), (0x0BE6, 0x0BEF), (0x0C66, 0x0C6F), (0x0CE6, 0x0CEF),
   (0x0D66, 0x0D6F), (0x0DE6, 0x0DEF), (0x0E50, 0x0E59), (0x0ED0, 0x0ED9),
   (0x0F20, 0x0F29), (0x1040, 0x1049), (0x1090, 0x1099), (0x17E0, 0x17E9),
   (0x1810, 0x1819), (0x1946, 0x194F), (0x19D0, 0x19D9), (0x1A80, 0x1A89),
   (0x1A90, 0x1A99), (0x1B50, 0x1B59), (0x1BB0, 0x1BB9), (0x1C40, 0x1C49),
   (0x1C50, 0x1C59), (0xA620, 0xA629), (0xA8D0, 0xA8D9), (0xA900, 0xA909),
   (0xA9D0, 0xA9D9), (0xA9F0, 0xA9F9), (0xAA50, 0xAA59), (0xABF0, 0xABF9),
   (0xFF10, 0xFF19),
   (0x104A0, 0x104A9), (0x10D30, 0x10D39), (0x11066, 0x1106F),
   (0x110F0, 0x110F9), (0x11136, 0x1113F), (0x111D0, 0x111D9),
   (0x112F0, 0x112F9), (0x11450, 0x11459), (0x114D0, 0x114D9),
   (0x11650, 0x11659), (0x116C0, 0x116C9), (0x11730, 0x11739),
   (0x118E0, 0x118E9), (0x11C50, 0x11C59), (0x11D50, 0x11D59),
   (0x16A60, 0x16A69), (0x16B50, 0x16B59),
   (0x1D7CE, 0x1D7D7), (0x1D7D8, 0x1D7E1), (0x1D7E2, 0x1D7EB),
   (0x1D7EC, 0x1D7F5), (0x1D7F6, 0x1D7FF), (0x1E950, 0x1E959)]

/-- A character matched by Python's \d on a `str` pattern (Unicode Nd). -/
def isPyDigit (c : Char) : Bool :=
  ndRanges.any (fun r => decide (r.1 ≤ c.toNat) && decide (c.toNat ≤ r.2))

/-- The decimal value Python's int() assigns to a Unicode decimal digit. -/
def pyDigitVal (c : Char) : Nat :=
  match ndRanges.find? (fun r => decide (r.1 ≤ c.toNat) && decide (c.toNat ≤ r.2)) with
  | some r => c.toNat - r.1
  | none => 0

/-- Python int() on a nonempty string of Unicode decimal digits. -/
def pyStrToNat (l : List Char) : Nat :=
  l.foldl (fun a c => 10 * a + pyDigitVal c) 0

/-- The errors raised by the program, one per distinct ValueError message. -/
inductive PyErr where
  | emptyName
  | invalidPhone
  | duplicatePhone
  | phoneNotFound
  | oldPhoneNotFound
  | invalidDate
  | duplicateName (n : String)
  | contactNotFound
  | unpackTooMany
  deriving DecidableEq

/-- str(error) for each raised ValueError, as in src/main.py. -/
def PyErr.msg : PyErr → String
  | .emptyName => "Name is a required field"
  | .invalidPhone => "Phone number must be 10 digits"
  | .duplicatePhone => "Phone number already exists"
  | .phoneNotFound => "Phone number not found"
  | .oldPhoneNotFound => "Old phone number not found"
  | .invalidDate => "Invalid date format. Example: DD.MM.YYYY"
  | .duplicateName n => "Record with name \x27" ++ n ++ "\x27 already exists"
  | .contactNotFound => "Contact not found"
  | .unpackTooMany => "too many values to unpack (expected 2)"

/--
re.fullmatch of the pattern \d{10} against s (Phone.__init__, src/main.py
lines 19-23): exactly ten characters, each a Unicode decimal digit.
-/
def validPhone (s : String) : Bool :=
  s.data.length == 10 && s.data.all isPyDigit

/-- Phone construction (src/main.py lines 19-23). -/
def validatePhone (s : String) : Except PyErr String :=
  if validPhone s then Except.ok s else Except.error PyErr.invalidPhone

deriving instance DecidableEq for Except

/-- A Python datetime.date value: a (year, month, day) triple. -/
structure PyDate where
  year : Nat
  month : Nat
  day : Nat
  deriving DecidableEq

/-- Gregorian leap-year rule, as used by Python's datetime module. -/
def isLeap (y : Nat) : Bool :=
  y % 4 == 0 && (y % 100 != 0 || y % 400 == 0)

/-- Number of days in a month of a given year (datetime's calendar). -/
def daysInMonth (y m : Nat) : Nat :=
  if m == 2 then (if isLeap y then 29 else 28)
  else if m == 4 || m == 6 || m == 9 || m == 11 then 30
  else 31

/-- The argument check of the datetime.date constructor. -/
def validDate (d : PyDate) : Bool :=
  decide (1 ≤ d.year) && decide (d.year ≤ 9999) &&
  decide (1 ≤ d.month) && decide (d.month ≤ 12) &&
  decide (1 ≤ d.day) && decide (d.day ≤ daysInMonth d.year d.month)

/-- datetime.date(y, m, d): the date when valid, ValueError otherwise. -/
def mkValid (y m d : Nat) : Option PyDate :=
  if validDate (PyDate.mk y m d) then some (PyDate.mk y m d) else none

/-- date.replace(year := y): rebuilds the date, revalidating (may raise). -/
def replaceYear (d : PyDate) (y : Nat) : Option PyDate :=
  mkValid y d.month d.day

/-- Days from some fixed epoch to January 1 of year y (proleptic Gregorian). -/
def daysBeforeYear (y : Nat) : Nat :=
  365 * (y - 1) + (y - 1) / 4 - (y - 1) / 100 + (y - 1) / 400

/-- Days in year y strictly before month m. -/
def daysBeforeMonth (y m : Nat) : Nat :=
  ((List.range (m - 1)).map (fun i => daysInMonth y (i + 1))).sum

/-- date.toordinal(): day count with 0001-01-01 mapped to 1. -/
def toOrdinal (d : PyDate) : Nat :=
  daysBeforeYear d.year + daysBeforeMonth d.year d.month + d.day

/-- Python date comparison: lexicographic on (year, month, day). -/
def dateLt (a b : PyDate) : Bool :=
  decide (a.year < b.year) ||
  (a.year == b.year &&
    (decide (a.month < b.month) ||
     (a.month == b.month && decide (a.day < b.day))))

/-- A number rendered with at least two digits (strftime %m, %d). -/
def pad2 (n : Nat) : String :=
  (if n < 10 then ("0") else ("")) ++ Nat.repr n

/-- A number rendered with at least four digits (strftime %Y). -/
def pad4 (n : Nat) : String :=
  (if n < 10 then ("000")
   else if n < 100 then ("00")
   else if n < 1000 then ("0")
   else ("")) ++ Nat.repr n

/-- date.strftime of the pattern %Y.%m.%d. -/
def formatYMD (d : PyDate) : String :=
  pad4 d.year ++ (".") ++ pad2 d.month ++ (".") ++ pad2 d.day

/-- Python str.split on a single dot (codepoint 46). -/
def splitOnDot : List Char → List (List Char)
  | [] => [[]]
  | c :: rest =>
    let r := splitOnDot rest
    if c.toNat == 46 then [] :: r
    else
      match r with
      | [] => [[c]]
      | h :: t => (c :: h) :: t

/--
The day field of strptime's %d directive, CPython regular expression
3[01] or [12]\d or 0[1-9] or [1-9] (the bracket classes are ASCII, the
class \d is any Unicode decimal digit).
-/
def dayOk (l : List Char) : Bool :=
  match l with
  | [c] => decide (49 ≤ c.toNat) && decide (c.toNat ≤ 57)
  | [c1, c2] =>
    (c1.toNat == 51 && (c2.toNat == 48 || c2.toNat == 49)) ||
    ((c1.toNat == 49 || c1.toNat == 50) && isPyDigit c2) ||
    (c1.toNat == 48 && decide (49 ≤ c2.toNat) && decide (c2.toNat ≤ 57))
  | _ => false

/--
The month field of strptime's %m directive, CPython regular expression
1[0-2] or 0[1-9] or [1-9].
-/
def monthOk (l : List Char) : Bool :=
  match l with
  | [c] => decide (49 ≤ c.toNat) && decide (c.toNat ≤ 57)
  | [c1, c2] =>
    (c1.toNat == 49 && decide (48 ≤ c2.toNat) && decide (c2.toNat ≤ 50)) ||
    (c1.toNat == 48 && decide (49 ≤ c2.toNat) && decide (c2.toNat ≤ 57))
  | _ => false

/-- The year field of strptime's %Y directive: exactly four \d digits. -/
def yearOk (l : List Char) : Bool :=
  l.length == 4 && l.all isPyDigit

/--
The regular-expression stage of datetime.strptime(s, the format d.m.Y with
percent directives): the whole string must be day field, dot, month field,
dot, year field.  Since no field may contain a dot, a match is equivalent
to splitting on dots into exactly three parts, each accepted by its field
pattern.  Returns the int() values (day, month, year) of the matched parts.
-/
def strptimeDMY (s : String) : Option (Nat × Nat × Nat) :=
  match splitOnDot s.data with
  | [d, m, y] =>
    if dayOk d && monthOk m && yearOk y then
      some (pyStrToNat d, pyStrToNat m, pyStrToNat y)
    else none
  | _ => none

/--
Birthday construction (src/main.py lines 25-33): datetime.strptime with the
d.m.Y format, then the datetime constructor validates the calendar date;
any ValueError is reported as the invalid-date message.
-/
def parseBirthday (s : String) : Except PyErr PyDate :=
  match strptimeDMY s with
  | some (d, m, y) =>
    if validDate (PyDate.mk y m d) then Except.ok (PyDate.mk y m d)
    else Except.error PyErr.invalidDate
  | none => Except.error PyErr.invalidDate

/--
The literal format DD.MM.YYYY of the specification text: two ASCII digits,
dot, two ASCII digits, dot, four ASCII digits.
-/
def literalFormat (s : String) : Bool :=
  match s.data with
  | [d1, d2, p1, m1, m2, p2, y1, y2, y3, y4] =>
    p1.toNat == 46 && p2.toNat == 46 &&
    ([d1, d2, m1, m2, y1, y2, y3, y4].all isAsciiDigit)
  | _ => false

/--
A contact record (class Record, src/main.py lines 35-72): an immutable-once-set
name, an ordered list of phone values (the Phone wrapper stores only its
string value), and an optional birthday.
-/
structure Record where
  name : String
  phones : List String
  birthday : Option PyDate
  deriving DecidableEq

/-- Record.__init__ via Name validation (src/main.py lines 13-17, 36-39). -/
def Record.new (name : String) : Except PyErr Record :=
  if name == "" then Except.error PyErr.emptyName
  else Except.ok (Record.mk name [] none)

/--
The loop of Record.remove_phone: remove the first phone whose value equals
the target, error once the list is exhausted.
-/
def removeFirst : List String → String → Except PyErr (List String)
  | [], _ => Except.error PyErr.phoneNotFound
  | p :: rest, target =>
    if p == target then Except.ok rest
    else
      match removeFirst rest target with
      | Except.ok l => Except.ok (p :: l)
      | Except.error e => Except.error e

/--
The loop of Record.edit_phone: at the first entry equal to the old value,
validate the new value and replace in place (preserving the position);
error once the list is exhausted without a match.  The new value is not
checked against the other phones of the record.
-/
def editPhones : List String → String → String → Except PyErr (List String)
  | [], _, _ => Except.error PyErr.oldPhoneNotFound
  | p :: rest, oldp, newp =>
    if p == oldp then
      if validPhone newp then Except.ok (newp :: rest)
      else Except.error PyErr.invalidPhone
    else
      match editPhones rest oldp newp with
      | Except.ok l => Except.ok (p :: l)
      | Except.error e => Except.error e

/--
Record.add_phone (src/main.py lines 41-44): duplicate check first, then
Phone validation, then append at the end.  Returns the post-state of the
record together with the raised error, if any.
-/
def Record.add_phone (r : Record) (p : String) : Record × Option PyErr :=
  if r.phones.any (fun q => q == p) then (r, some PyErr.duplicatePhone)
  else if validPhone p then
    (Record.mk r.name (r.phones ++ [p]) r.birthday, none)
  else (r, some PyErr.invalidPhone)

/-- Record.remove_phone (src/main.py lines 46-51). -/
def Record.remove_phone (r : Record) (p : String) : Record × Option PyErr :=
  match removeFirst r.phones p with
  | Except.ok l => (Record.mk r.name l r.birthday, none)
  | Except.error e => (r, some e)

/-- Record.edit_phone (src/main.py lines 53-58). -/
def Record.edit_phone (r : Record) (oldp newp : String) : Record × Option PyErr :=
  match editPhones r.phones oldp newp with
  | Except.ok l => (Record.mk r.name l r.birthday, none)
  | Except.error e => (r, some e)

/-- Record.find_phone (src/main.py lines 60-64). -/
def Record.find_phone (r : Record) (p : String) : Except PyErr String :=
  if r.phones.any (fun q => q == p) then Except.ok p
  else Except.error PyErr.phoneNotFound

/-- Record.add_birthday (src/main.py lines 66-67): last write wins. -/
def Record.add_birthday (r : Record) (s : String) : Record × Option PyErr :=
  match parseBirthday s with
  | Except.ok d => (Record.mk r.name r.phones (some d), none)
  | Except.error e => (r, some e)

/--
The address book (class AddressBook, src/main.py lines 74-108): a Python
dict from name to record, modelled as an association list in insertion
order with unique keys, which is exactly the iteration order a dict
guarantees.
-/
structure AddressBook where
  data : List (String × Record)
  deriving DecidableEq

/-- AddressBook.find (src/main.py lines 80-81): dict.get, an absence marker. -/
def AddressBook.find (b : AddressBook) (n : String) : Option Record :=
  Option.map Prod.snd (b.data.find? (fun kv => kv.1 == n))

/-- AddressBook.add_record (src/main.py lines 75-78). -/
def AddressBook.add_record (b : AddressBook) (r : Record) : AddressBook × Option PyErr :=
  if b.data.any (fun kv => kv.1 == r.name) then
    (b, some (PyErr.duplicateName r.name))
  else (AddressBook.mk (b.data ++ [(r.name, r)]), none)

/-- AddressBook.delete (src/main.py lines 83-87). -/
def AddressBook.delete (b : AddressBook) (n : String) : AddressBook × Option PyErr :=
  if b.data.any (fun kv => kv.1 == n) then
    (AddressBook.mk (b.data.filter (fun kv => !(kv.1 == n))), none)
  else (b, some PyErr.contactNotFound)

/--
Overwriting the record stored under a key, leaving the iteration order
unchanged.  This models Python aliasing: a handler that obtained a record
from the dict and mutated it in place leaves the dict mapping the same key
to the updated object.
-/
def AddressBook.setRecord (b : AddressBook) (n : String) (r : Record) : AddressBook :=
  AddressBook.mk (b.data.map (fun kv => if kv.1 == n then (kv.1, r) else kv))

/-- One entry of the upcoming-birthday result (the dict literal, line 103). -/
structure Congrat where
  name : String
  congratulation_date : String
  deriving DecidableEq

/--
Lines 95-98 of src/main.py: this year's occurrence of the birthday via
date.replace, rolled to the next year when it fell before the reference
date; `none` models a ValueError escaping from date.replace.  The
reference date stands for datetime.today().date().
-/
def occurrenceCode (today bday : PyDate) : Option PyDate :=
  match replaceYear bday today.year with
  | none => none
  | some bty =>
    if dateLt bty today then replaceYear bty (today.year + 1)
    else some bty

/--
The body of the loop of AddressBook.get_upcoming_birthdays (src/main.py
lines 93-106) for a single record: `none` models a ValueError escaping
from date.replace, `some none` a record contributing no entry,
`some (some c)` a contributed entry.
-/
def upcomingStep (today : PyDate) (r : Record) : Option (Option Congrat) :=
  match r.birthday with
  | none => some none
  | some bday =>
    match occurrenceCode today bday with
    | none => none
    | some bty2 =>
      let days : Int := (toOrdinal bty2 : Int) - (toOrdinal today : Int)
      if 0 ≤ days ∧ days ≤ 7 then
        some (some (Congrat.mk r.name (formatYMD bty2)))
      else some none

/-- The loop of AddressBook.get_upcoming_birthdays over the stored records. -/
def upcomingList (today : PyDate) : List (String × Record) → Option (List Congrat)
  | [] => some ([])
  | kv :: rest =>
    match upcomingStep today kv.2 with
    | none => none
    | some none => upcomingList today rest
    | some (some c) => Option.map (fun l => c :: l) (upcomingList today rest)

/-- AddressBook.get_upcoming_birthdays (src/main.py lines 89-108). -/
def AddressBook.get_upcoming_birthdays (b : AddressBook) (today : PyDate) :
    Option (List Congrat) :=
  upcomingList today b.data

/--
The specification's occurrence date: the birthday's month and day applied
to the reference year, rolled forward to the next year if it already fell
before the reference date; undefined when that calendar date does not exist.
-/
def occurrenceSpec (today bday : PyDate) : Option PyDate :=
  match mkValid today.year bday.month bday.day with
  | none => none
  | some occ =>
    if dateLt occ today then mkValid (today.year + 1) bday.month bday.day
    else some occ

/--
The specification's verdict for a single record: include it when the day
difference between the occurrence and the reference date is between 0 and
7 inclusive, carrying the name and the occurrence formatted YYYY.MM.DD.
-/
def upcomingSpecStep (today : PyDate) (r : Record) : Option (Option Congrat) :=
  match r.birthday with
  | none => some none
  | some bday =>
    match occurrenceSpec today bday with
    | none => none
    | some occ =>
      let diff : Int := (toOrdinal occ : Int) - (toOrdinal today : Int)
      if 0 ≤ diff ∧ diff ≤ 7 then
        some (some (Congrat.mk r.name (formatYMD occ)))
      else some none

/-- The specification's result sequence, in insertion order of the records. -/
def upcomingSpecList (today : PyDate) : List (String × Record) → Option (List Congrat)
  | [] => some ([])
  | kv :: rest =>
    match upcomingSpecStep today kv.2 with
    | none => none
    | some none => upcomingSpecList today rest
    | some (some c) => Option.map (fun l => c :: l) (upcomingSpecList today rest)

/-- upcomingBirthdays as worded in the specification, for comparison. -/
def AddressBook.upcomingBirthdaysSpec (b : AddressBook) (today : PyDate) :
    Option (List Congrat) :=
  upcomingSpecList today b.data

/-- A record whose stored birthday is a valid date other than February 29. -/
def goodBirthday (r : Record) : Bool :=
  match r.birthday with
  | none => true
  | some bd => validDate bd && !(bd.month == 2 && bd.day == 29)

/--
The add command handler (src/main.py lines 134-149) together with its
input_error wrapper (lines 126-132): returns the printed string and the
post-state of the book.  A record freshly created or found is aliased by
the book, so the phone update is written back under its key.
-/
def add_contact (args : List String) (book : AddressBook) : String × AddressBook :=
  if args.length < 2 then ("Example: add [name] [phone]", book)
  else
    match args with
    | [name, phone] =>
      match book.find name with
      | some record =>
        match record.add_phone phone with
        | (r2, some e) => (e.msg, book.setRecord name r2)
        | (r2, none) => ("Contact updated", book.setRecord name r2)
      | none =>
        match Record.new name with
        | Except.error e => (e.msg, book)
        | Except.ok record =>
          match book.add_record record with
          | (b2, some e) => (e.msg, b2)
          | (b2, none) =>
            match record.add_phone phone with
            | (r2, some e) => (e.msg, b2.setRecord name r2)
            | (r2, none) => ("Contact added", b2.setRecord name r2)
    | _ => (PyErr.unpackTooMany.msg, book)

/--
C3 counterexample: the string of ten Arabic-Indic digits (U+0660..U+0669,
category Nd) is accepted by Phone validation although none of its
characters is an ASCII decimal digit, so acceptance is not equivalent to
being exactly ten ASCII digits.
-/
theorem C3_counterexample :
    ¬ ((validatePhone ("٠١٢٣٤٥٦٧٨٩") = Except.ok ("٠١٢٣٤٥٦٧٨٩")) ↔
       (("٠١٢٣٤٥٦٧٨٩").data.length = 10 ∧
        ("٠١٢٣٤٥٦٧٨٩").data.all isAsciiDigit = true)) := by
  decide

/--
C3 amended: validatePhone succeeds exactly on strings of ten Unicode
decimal digits (what Python's regular-expression class matches), and every
other string fails with the invalid-phone error.
-/
theorem C3_phone_validation (s : String) :
    (validatePhone s = Except.ok s ↔
      (s.data.length = 10 ∧ s.data.all isPyDigit = true)) ∧
    (validatePhone s = Except.ok s ∨
     validatePhone s = Except.error PyErr.invalidPhone) := by
  unfold validatePhone
  by_cases h : validPhone s = true
  · rw [if_pos h]
    refine ⟨iff_of_true rfl ?_, Or.inl rfl⟩
    unfold validPhone at h
    simpa using h
  · rw [if_neg h]
    refine ⟨iff_of_false (fun hx => Except.noConfusion hx) ?_, Or.inr rfl⟩
    intro hc
    apply h
    unfold validPhone
    simp [hc.1, hc.2]

/-- C3 amended, instantiated at a concrete accepted phone string. -/
theorem C3_phone_validation_witness :
    (validatePhone ("0123456789") = Except.ok ("0123456789") ↔
      (("0123456789").data.length = 10 ∧
       ("0123456789").data.all isPyDigit = true)) ∧
    (validatePhone ("0123456789") = Except.ok ("0123456789") ∨
     validatePhone ("0123456789") = Except.error PyErr.invalidPhone) :=
  C3_phone_validation ("0123456789")

/--
C5 counterexample: the string 1.1.2024 is accepted by Birthday parsing
(strptime matches one- or two-digit day and month fields) although it does
not match the literal format DD.MM.YYYY, so acceptance is not equivalent
to literal-format plus real-calendar-date.
-/
theorem C5_counterexample :
    ¬ (((parseBirthday ("1.1.2024")).toOption.isSome = true) ↔
       (literalFormat ("1.1.2024") = true ∧
        validDate (PyDate.mk 2024 1 1) = true)) := by
  decide

/--
C5 amended: Birthday parsing succeeds exactly on strings of the shape
day.month.year where the day part matches the strptime day pattern (one or
two digits, value 1..31), the month part the strptime month pattern (one
or two digits, value 1..12), the year part exactly four digits, and the
three values denote a real calendar date; leading zeroes on day and month
are optional.  In particular 31.02.2024 is rejected, 29.02.2024 (leap
year) accepted, 29.02.2023 rejected, and the unpadded 1.1.2024 accepted.
-/
theorem C5_birthday_parse (s : String) :
    ((parseBirthday s).toOption.isSome =
      (match splitOnDot s.data with
       | [d, m, y] =>
         dayOk d && monthOk m && yearOk y &&
         validDate (PyDate.mk (pyStrToNat y) (pyStrToNat m) (pyStrToNat d))
       | _ => false)) ∧
    parseBirthday ("29.02.2024") = Except.ok (PyDate.mk 2024 2 29) ∧
    parseBirthday ("29.02.2023") = Except.error PyErr.invalidDate ∧
    parseBirthday ("31.02.2024") = Except.error PyErr.invalidDate ∧
    parseBirthday ("1.1.2024") = Except.ok (PyDate.mk 2024 1 1) := by
  refine ⟨?_, by decide, by decide, by decide, by decide⟩
  unfold parseBirthday strptimeDMY
  cases hs : splitOnDot s.data with
  | nil => rfl
  | cons d t =>
    cases t with
    | nil => rfl
    | cons m t2 =>
      cases t2 with
      | nil => rfl
      | cons y t3 =>
        cases t3 with
        | cons z t4 => rfl
        | nil =>
          by_cases hb : (dayOk d && monthOk m && yearOk y) = true
          · cases hv : validDate (PyDate.mk (pyStrToNat y) (pyStrToNat m) (pyStrToNat d)) with
            | true => simp [Except.toOption, hb, hv]
            | false => simp [Except.toOption, hb, hv]
          · simp only [Bool.not_eq_true] at hb
            simp [Except.toOption, hb]

/-- C5 amended, instantiated at the concrete leap-year string. -/
theorem C5_birthday_parse_witness :
    ((parseBirthday ("29.02.2024")).toOption.isSome =
      (match splitOnDot ("29.02.2024").data with
       | [d, m, y] =>
         dayOk d && monthOk m && yearOk y &&
         validDate (PyDate.mk (pyStrToNat y) (pyStrToNat m) (pyStrToNat d))
       | _ => false)) ∧
    parseBirthday ("29.02.2024") = Except.ok (PyDate.mk 2024 2 29) ∧
    parseBirthday ("29.02.2023") = Except.error PyErr.invalidDate ∧
    parseBirthday ("31.02.2024") = Except.error PyErr.invalidDate ∧
    parseBirthday ("1.1.2024") = Except.ok (PyDate.mk 2024 1 1) :=
  C5_birthday_parse ("29.02.2024")

/--
C6: whenever editPhone raises (old value absent, or new value failing
phone validation), the record's phone sequence is exactly what it was
before the call.
-/
theorem C6_failed_edit_preserves_phones (r : Record) (o n : String) (e : PyErr)
    (h : (r.edit_phone o n).2 = some e) :
    (r.edit_phone o n).1.phones = r.phones := by
  unfold Record.edit_phone at h ⊢
  cases he : editPhones r.phones o n with
  | error e2 => simp [he]
  | ok l => rw [he] at h; simp at h

/-- C6 at a concrete record and a failing edit (old value absent). -/
theorem C6_failed_edit_preserves_phones_witness :
    (Record.edit_phone (Record.mk ("A") [("0123456789")] none)
        ("0000000000") ("0111111111")).1.phones = [("0123456789")] :=
  C6_failed_edit_preserves_phones (Record.mk ("A") [("0123456789")] none)
    ("0000000000") ("0111111111") PyErr.oldPhoneNotFound (by decide)

/--
C7: adding a phone value already present fails with the duplicate error and
leaves the record unchanged; adding a valid value not yet present succeeds
and appends it at the end of the phone sequence.
-/
theorem C7_add_phone_duplicate_or_append (r : Record) (p q : String)
    (h1 : p ∈ r.phones) (h2 : q ∉ r.phones) (h3 : validPhone q = true) :
    r.add_phone p = (r, some PyErr.duplicatePhone) ∧
    r.add_phone q = (Record.mk r.name (r.phones ++ [q]) r.birthday, none) := by
  constructor
  · unfold Record.add_phone
    have hany : r.phones.any (fun x => x == p) = true := by
      rw [List.any_eq_true]
      exact ⟨p, h1, by simp⟩
    rw [if_pos hany]
  · unfold Record.add_phone
    have hany : r.phones.any (fun x => x == q) = false := by
      rw [Bool.eq_false_iff]
      intro hx
      rcases List.any_eq_true.mp hx with ⟨x, hm, hbe⟩
      exact h2 ((beq_iff_eq.mp hbe) ▸ hm)
    rw [if_neg (by simp [hany]), if_pos h3]

/-- C7 at a concrete record, a duplicate value and a fresh valid value. -/
theorem C7_add_phone_duplicate_or_append_witness :
    Record.add_phone (Record.mk ("A") [("0123456789")] none) ("0123456789")
      = (Record.mk ("A") [("0123456789")] none, some PyErr.duplicatePhone) ∧
    Record.add_phone (Record.mk ("A") [("0123456789")] none) ("0999999999")
      = (Record.mk ("A") [("0123456789"), ("0999999999")] none, none) :=
  C7_add_phone_duplicate_or_append (Record.mk ("A") [("0123456789")] none)
    ("0123456789") ("0999999999") (by decide) (by decide) (by decide)

/--
C8: inserting a record under a name already stored fails with the
duplicate-name error and leaves the book unchanged; inserting under a fresh
name appends the record at the end, and key uniqueness is preserved.
-/
theorem C8_add_record_unique_names (b : AddressBook) (r r2 : Record)
    (h1 : r.name ∈ b.data.map Prod.fst)
    (h2 : r2.name ∉ b.data.map Prod.fst)
    (h3 : (b.data.map Prod.fst).Nodup) :
    b.add_record r = (b, some (PyErr.duplicateName r.name)) ∧
    (b.add_record r2).1.data = b.data ++ [(r2.name, r2)] ∧
    ((b.add_record r2).1.data.map Prod.fst).Nodup := by
  have hany1 : b.data.any (fun kv => kv.1 == r.name) = true := by
    rw [List.any_eq_true]
    rcases List.mem_map.mp h1 with ⟨kv, hkv, hfst⟩
    exact ⟨kv, hkv, by simp [hfst]⟩
  have hany2 : b.data.any (fun kv => kv.1 == r2.name) = false := by
    rw [Bool.eq_false_iff]
    intro hx
    rcases List.any_eq_true.mp hx with ⟨kv, hm, hbe⟩
    exact h2 (List.mem_map.mpr ⟨kv, hm, beq_iff_eq.mp hbe⟩)
  refine ⟨?_, ?_, ?_⟩
  · unfold AddressBook.add_record
    rw [if_pos hany1]
  · unfold AddressBook.add_record
    rw [if_neg (by simp [hany2])]
  · unfold AddressBook.add_record
    rw [if_neg (by simp [hany2])]
    simp only [List.map_append, List.map_cons, List.map_nil]
    rw [List.nodup_append]
    refine ⟨h3, List.nodup_singleton _, ?_⟩
    intro a ha hb
    simp only [List.mem_singleton] at hb
    exact h2 (hb ▸ ha)

/-- C8 at a concrete book, a clashing record and a fresh record. -/
theorem C8_add_record_unique_names_witness :
    AddressBook.add_record (AddressBook.mk [(("Alice"), Record.mk ("Alice") [] none)])
        (Record.mk ("Alice") [] none)
      = (AddressBook.mk [(("Alice"), Record.mk ("Alice") [] none)],
         some (PyErr.duplicateName ("Alice"))) ∧
    (AddressBook.add_record (AddressBook.mk [(("Alice"), Record.mk ("Alice") [] none)])
        (Record.mk ("Bob") [] none)).1.data
      = [(("Alice"), Record.mk ("Alice") [] none)] ++ [(("Bob"), Record.mk ("Bob") [] none)] ∧
    (((AddressBook.add_record (AddressBook.mk [(("Alice"), Record.mk ("Alice") [] none)])
        (Record.mk ("Bob") [] none)).1.data.map Prod.fst).Nodup) :=
  C8_add_record_unique_names (AddressBook.mk [(("Alice"), Record.mk ("Alice") [] none)])
    (Record.mk ("Alice") [] none) (Record.mk ("Bob") [] none)
    (by decide) (by decide) (by decide)

/--
C9: on an empty book, add Alice 0123456789 then add Alice 0999999999 makes
the second handler call answer Contact updated, and the record stored under
Alice then holds both phones, each retrievable via find_phone.
-/
theorem C9_add_updates_existing_contact :
    (add_contact [("Alice"), ("0999999999")]
        (add_contact [("Alice"), ("0123456789")] (AddressBook.mk [])).2).1
      = "Contact updated" ∧
    (add_contact [("Alice"), ("0999999999")]
        (add_contact [("Alice"), ("0123456789")] (AddressBook.mk [])).2).2.find ("Alice")
      = some (Record.mk ("Alice") [("0123456789"), ("0999999999")] none) ∧
    Record.find_phone (Record.mk ("Alice") [("0123456789"), ("0999999999")] none)
        ("0123456789") = Except.ok ("0123456789") ∧
    Record.find_phone (Record.mk ("Alice") [("0123456789"), ("0999999999")] none)
        ("0999999999") = Except.ok ("0999999999") := by
  decide

/-- From a failed lookup, every stored key differs from the looked-up name. -/
theorem find_none_keys (b : AddressBook) (nm : String) (h : b.find nm = none) :
    ∀ kv ∈ b.data, (kv.1 == nm) = false := by
  unfold AddressBook.find at h
  have hf : b.data.find? (fun kv => kv.1 == nm) = none := by
    cases hf : b.data.find? (fun kv => kv.1 == nm) with
    | none => rfl
    | some kv => rw [hf] at h; simp at h
  intro kv hkv
  have := List.find?_eq_none.mp hf kv hkv
  simpa using this

/-- Overwriting under a key that no entry carries changes nothing. -/
theorem map_setRecord_id (l : List (String × Record)) (nm : String) (r : Record)
    (h : ∀ kv ∈ l, (kv.1 == nm) = false) :
    l.map (fun kv => if kv.1 == nm then (kv.1, r) else kv) = l := by
  induction l with
  | nil => rfl
  | cons kv t ih =>
    simp only [List.map_cons]
    rw [if_neg (by simp [h kv (List.mem_cons_self kv t)])]
    rw [ih (fun x hx => h x (List.mem_cons_of_mem kv hx))]

/--
C10: calling the add handler with a fresh (nonempty) name and a phone
string failing validation answers the phone validation message, yet leaves
the book holding a freshly inserted record for that name with an empty
phone list: the insertion done before phone validation is not rolled back.
-/
theorem C10_failed_add_keeps_empty_record (b : AddressBook) (nm ph : String)
    (h1 : b.find nm = none) (h2 : nm ≠ "") (h3 : validPhone ph = false) :
    add_contact [nm, ph] b =
      ("Phone number must be 10 digits",
       AddressBook.mk (b.data ++ [(nm, Record.mk nm [] none)])) := by
  have hkeys := find_none_keys b nm h1
  have hany : b.data.any (fun kv => kv.1 == nm) = false := by
    rw [Bool.eq_false_iff]
    intro hx
    rcases List.any_eq_true.mp hx with ⟨kv, hm, hp⟩
    rw [hkeys kv hm] at hp
    exact Bool.noConfusion hp
  have hnew : Record.new nm = Except.ok (Record.mk nm [] none) := by
    unfold Record.new
    rw [if_neg (by simp [h2])]
  unfold add_contact
  rw [if_neg (by simp)]
  simp only [h1, hnew]
  unfold AddressBook.add_record
  rw [if_neg (by simp [hany])]
  simp only [Record.add_phone, List.any_nil, Bool.false_eq_true, if_false, h3]
  unfold AddressBook.setRecord
  simp only [List.map_append, map_setRecord_id b.data nm _ hkeys]
  simp [PyErr.msg]

/--
C2 counterexample: a record reachable through the API (two addPhone calls)
holds two distinct phones; editing the first to the value of the second
succeeds and leaves the phones list with a duplicate, so editPhone does not
preserve the uniqueness invariant.
-/
theorem C2_counterexample :
    ((((Record.mk ("A") [] none).add_phone ("0000000000")).1.add_phone
        ("1111111111")).1
      = Record.mk ("A") [("0000000000"), ("1111111111")] none) ∧
    (Record.mk ("A") [("0000000000"), ("1111111111")] none).phones.Nodup ∧
    ((Record.mk ("A") [("0000000000"), ("1111111111")] none).edit_phone
        ("0000000000") ("1111111111")).2 = none ∧
    ¬ ((Record.mk ("A") [("0000000000"), ("1111111111")] none).edit_phone
        ("0000000000") ("1111111111")).1.phones.Nodup := by
  decide

/-- A successful edit only introduces the new value into the list. -/
theorem editPhones_mem (l : List String) (o n x : String) (l2 : List String)
    (h : editPhones l o n = Except.ok l2) (hx : x ∈ l2) : x ∈ l ∨ x = n := by
  induction l generalizing l2 with
  | nil => simp [editPhones] at h
  | cons p rest ih =>
    unfold editPhones at h
    by_cases hp : (p == o) = true
    · rw [if_pos hp] at h
      by_cases hv : validPhone n = true
      · rw [if_pos hv] at h
        injection h with h2
        subst h2
        rcases List.mem_cons.mp hx with hx | hx
        · exact Or.inr hx
        · exact Or.inl (List.mem_cons_of_mem p hx)
      · rw [if_neg hv] at h; exact absurd h (by simp)
    · rw [if_neg hp] at h
      cases he : editPhones rest o n with
      | ok l3 =>
        rw [he] at h
        injection h with h2
        subst h2
        rcases List.mem_cons.mp hx with hx | hx
        · exact Or.inl (hx ▸ List.mem_cons_self p rest)
        · rcases ih l3 he hx with hm | hm
          · exact Or.inl (List.mem_cons_of_mem p hm)
          · exact Or.inr hm
      | error e => rw [he] at h; exact absurd h (by simp)

/--
A successful edit preserves distinctness of the phones provided the new
value does not already occur elsewhere (or equals the old value).
-/
theorem editPhones_nodup (l : List String) (o n : String) (l2 : List String)
    (hnd : l.Nodup) (hc : n ∉ l ∨ n = o)
    (h : editPhones l o n = Except.ok l2) : l2.Nodup := by
  induction l generalizing l2 with
  | nil => simp [editPhones] at h
  | cons p rest ih =>
    rw [List.nodup_cons] at hnd
    unfold editPhones at h
    by_cases hp : (p == o) = true
    · rw [if_pos hp] at h
      by_cases hv : validPhone n = true
      · rw [if_pos hv] at h
        injection h with h2
        subst h2
        rw [List.nodup_cons]
        refine ⟨?_, hnd.2⟩
        rcases hc with hc | hc
        · exact fun hmem => hc (List.mem_cons_of_mem p hmem)
        · rw [hc, ← beq_iff_eq.mp hp]
          exact hnd.1
      · rw [if_neg hv] at h; exact absurd h (by simp)
    · rw [if_neg hp] at h
      cases he : editPhones rest o n with
      | ok l3 =>
        rw [he] at h
        injection h with h2
        subst h2
        rw [List.nodup_cons]
        constructor
        · intro hmem
          rcases editPhones_mem rest o n p l3 he hmem with hm | hm
          · exact hnd.1 hm
          · rcases hc with hc | hc
            · exact hc (by rw [← hm]; exact List.mem_cons_self p rest)
            · exact hp (beq_iff_eq.mpr (hm.trans hc))
        · refine ih l3 hnd.2 ?_ he
          rcases hc with hc | hc
          · exact Or.inl (fun hr => hc (List.mem_cons_of_mem p hr))
          · exact Or.inr hc
      | error e => rw [he] at h; exact absurd h (by simp)

/-- Removal only drops values: members of the result were members before. -/
theorem removeFirst_mem (l : List String) (t x : String) (l2 : List String)
    (h : removeFirst l t = Except.ok l2) (hx : x ∈ l2) : x ∈ l := by
  induction l generalizing l2 with
  | nil => simp [removeFirst] at h
  | cons p rest ih =>
    unfold removeFirst at h
    by_cases hp : (p == t) = true
    · rw [if_pos hp] at h
      injection h with h2
      subst h2
      exact List.mem_cons_of_mem p hx
    · rw [if_neg hp] at h
      cases he : removeFirst rest t with
      | ok l3 =>
        rw [he] at h
        injection h with h2
        subst h2
        rcases List.mem_cons.mp hx with hx | hx
        · exact hx ▸ List.mem_cons_self p rest
        · exact List.mem_cons_of_mem p (ih l3 he hx)
      | error e => rw [he] at h; exact absurd h (by simp)

/-- A successful removal preserves distinctness of the phones. -/
theorem removeFirst_nodup (l : List String) (t : String) (l2 : List String)
    (hnd : l.Nodup) (h : removeFirst l t = Except.ok l2) : l2.Nodup := by
  induction l generalizing l2 with
  | nil => simp [removeFirst] at h
  | cons p rest ih =>
    rw [List.nodup_cons] at hnd
    unfold removeFirst at h
    by_cases hp : (p == t) = true
    · rw [if_pos hp] at h
      injection h with h2
      subst h2
      exact hnd.2
    · rw [if_neg hp] at h
      cases he : removeFirst rest t with
      | ok l3 =>
        rw [he] at h
        injection h with h2
        subst h2
        rw [List.nodup_cons]
        exact ⟨fun hmem => hnd.1 (removeFirst_mem rest t p l3 he hmem),
               ih l3 hnd.2 he⟩
      | error e => rw [he] at h; exact absurd h (by simp)

/--
C2 amended: the no-duplicate invariant on a record's phones is preserved by
record construction, addPhone, removePhone, setBirthday, and by addRecord
on the book; editPhone preserves it exactly when the new value does not
already occur in the list (or equals the edited old value).
-/
theorem C2_phone_uniqueness_preserved (r rn : Record) (b : AddressBook)
    (nm p old new bs : String)
    (h0 : Record.new nm = Except.ok rn)
    (h1 : r.phones.Nodup)
    (h2 : new ∉ r.phones ∨ new = old)
    (h3 : b.data.all (fun kv => decide kv.2.phones.Nodup) = true) :
    rn.phones.Nodup ∧
    (r.add_phone p).1.phones.Nodup ∧
    (r.remove_phone p).1.phones.Nodup ∧
    (r.edit_phone old new).1.phones.Nodup ∧
    (r.add_birthday bs).1.phones.Nodup ∧
    (b.add_record r).1.data.all (fun kv => decide kv.2.phones.Nodup) = true := by
  refine ⟨?_, ?_, ?_, ?_, ?_, ?_⟩
  · unfold Record.new at h0
    by_cases hn : (nm == "") = true
    · rw [if_pos hn] at h0; exact absurd h0 (by simp)
    · rw [if_neg hn] at h0
      injection h0 with h4
      subst h4
      simp
  · unfold Record.add_phone
    by_cases ha : r.phones.any (fun q => q == p) = true
    · rw [if_pos ha]; exact h1
    · rw [if_neg (by simp [ha])]
      by_cases hv : validPhone p = true
      · rw [if_pos hv]
        rw [List.nodup_append]
        refine ⟨h1, List.nodup_singleton p, ?_⟩
        intro a haa hab
        simp only [List.mem_singleton] at hab
        subst hab
        exact ha (List.any_eq_true.mpr ⟨a, haa, by simp⟩)
      · rw [if_neg hv]; exact h1
  · unfold Record.remove_phone
    cases he : removeFirst r.phones p with
    | ok l => exact removeFirst_nodup r.phones p l h1 he
    | error e => exact h1
  · unfold Record.edit_phone
    cases he : editPhones r.phones old new with
    | ok l => exact editPhones_nodup r.phones old new l h1 h2 he
    | error e => exact h1
  · unfold Record.add_birthday
    cases parseBirthday bs with
    | ok d => exact h1
    | error e => exact h1
  · unfold AddressBook.add_record
    by_cases ha : b.data.any (fun kv => kv.1 == r.name) = true
    · rw [if_pos ha]; exact h3
    · rw [if_neg (by simp [ha])]
      simp only [List.all_append, List.all_cons, List.all_nil, h3]
      simp [h1]

/-- C2 amended, instantiated at concrete records and operations. -/
theorem C2_phone_uniqueness_preserved_witness :
    (Record.mk ("B") [] none).phones.Nodup ∧
    ((Record.mk ("A") [("0123456789")] none).add_phone
        ("0999999999")).1.phones.Nodup ∧
    ((Record.mk ("A") [("0123456789")] none).remove_phone
        ("0999999999")).1.phones.Nodup ∧
    ((Record.mk ("A") [("0123456789")] none).edit_phone
        ("0123456789") ("0777777777")).1.phones.Nodup ∧
    ((Record.mk ("A") [("0123456789")] none).add_birthday
        ("01.01.1990")).1.phones.Nodup ∧
    ((AddressBook.mk []).add_record
        (Record.mk ("A") [("0123456789")] none)).1.data.all
      (fun kv => decide kv.2.phones.Nodup) = true :=
  C2_phone_uniqueness_preserved (Record.mk ("A") [("0123456789")] none)
    (Record.mk ("B") [] none) (AddressBook.mk [])
    ("B") ("0999999999") ("0123456789") ("0777777777") ("01.01.1990")
    (by decide) (by decide) (by decide) (by decide)

/-- C10 at a concrete empty book, fresh name and invalid phone string. -/
theorem C10_failed_add_keeps_empty_record_witness :
    add_contact [("Bob"), ("123")] (AddressBook.mk []) =
      ("Phone number must be 10 digits",
       AddressBook.mk [(("Bob"), Record.mk ("Bob") [] none)]) :=
  C10_failed_add_keeps_empty_record (AddressBook.mk []) ("Bob") ("123")
    (by decide) (by decide) (by decide)

/--
C4 counterexample: a record whose birthday, set through the API from the
string 29.02.2000, is February 29 makes the upcoming-birthday query fail
(date.replace raises for day 29 of February 2023), so the query is not
total for every record with a birthday.
-/
theorem C4_counterexample :
    (((Record.mk ("A") [] none).add_birthday ("29.02.2000")).1
      = Record.mk ("A") [] (some (PyDate.mk 2000 2 29))) ∧
    AddressBook.get_upcoming_birthdays
        (AddressBook.mk [(("A"), Record.mk ("A") [] (some (PyDate.mk 2000 2 29)))])
        (PyDate.mk 2023 1 1)
      = none := by
  decide

/-- Outside February, month length does not depend on the year. -/
theorem daysInMonth_eq_of_ne_two (y1 y2 m : Nat) (hm : m ≠ 2) :
    daysInMonth y1 m = daysInMonth y2 m := by
  simp [daysInMonth, hm]

/-- February has 28 or 29 days in every year. -/
theorem feb_bounds (y : Nat) : 28 ≤ daysInMonth y 2 ∧ daysInMonth y 2 ≤ 29 := by
  unfold daysInMonth
  cases h : isLeap y <;> simp [h]

/--
Replacing the year of a valid date other than February 29 yields a valid
date for any target year in range.
-/
theorem validDate_replace (bd : PyDate) (y : Nat)
    (hv : validDate bd = true) (hf : (bd.month == 2 && bd.day == 29) = false)
    (hy1 : 1 ≤ y) (hy2 : y ≤ 9999) :
    validDate (PyDate.mk y bd.month bd.day) = true := by
  unfold validDate at hv ⊢
  simp only [Bool.and_eq_true, decide_eq_true_eq] at hv ⊢
  obtain ⟨⟨⟨⟨⟨hv1, hv2⟩, hv3⟩, hv4⟩, hv5⟩, hv6⟩ := hv
  refine ⟨⟨⟨⟨⟨hy1, hy2⟩, hv3⟩, hv4⟩, hv5⟩, ?_⟩
  by_cases hm : bd.month = 2
  · have hd29 : bd.day ≠ 29 := by
      intro hd
      rw [hm, hd] at hf
      simp at hf
    rw [hm] at hv6 ⊢
    have h28 := (feb_bounds y).1
    have h29 := (feb_bounds bd.year).2
    omega
  · rw [daysInMonth_eq_of_ne_two y bd.year bd.month hm]
    exact hv6

/-- replaceYear applied to an explicit date literal. -/
theorem replaceYear_mk (y0 m d y : Nat) :
    replaceYear (PyDate.mk y0 m d) y = mkValid y m d := rfl

/--
The per-record body of the upcoming-birthday loop cannot raise when the
record's birthday (if any) is a valid date other than February 29 and the
reference year and its successor are representable.
-/
theorem upcomingStep_isSome (today : PyDate) (r : Record)
    (hg : goodBirthday r = true) (hy1 : 1 ≤ today.year)
    (hy2 : today.year + 1 ≤ 9999) :
    (upcomingStep today r).isSome = true := by
  unfold upcomingStep
  cases hb : r.birthday with
  | none => rfl
  | some bd =>
    unfold goodBirthday at hg
    rw [hb] at hg
    simp only [Bool.and_eq_true] at hg
    have hf : (bd.month == 2 && bd.day == 29) = false := by
      have h5 := hg.2
      rwa [Bool.not_eq_eq_eq_not, Bool.not_true] at h5
    have hr1 : validDate (PyDate.mk today.year bd.month bd.day) = true :=
      validDate_replace bd today.year hg.1 hf hy1 (by omega)
    have e1 : replaceYear bd today.year
        = some (PyDate.mk today.year bd.month bd.day) := by
      unfold replaceYear mkValid
      rw [if_pos hr1]
    have hr2 : validDate (PyDate.mk (today.year + 1) bd.month bd.day) = true :=
      validDate_replace bd (today.year + 1) hg.1 hf (by omega) hy2
    have e2 : replaceYear (PyDate.mk today.year bd.month bd.day) (today.year + 1)
        = some (PyDate.mk (today.year + 1) bd.month bd.day) := by
      rw [replaceYear_mk]
      unfold mkValid
      rw [if_pos hr2]
    by_cases hlt : dateLt (PyDate.mk today.year bd.month bd.day) today = true
    · have hocc : occurrenceCode today bd
          = some (PyDate.mk (today.year + 1) bd.month bd.day) := by
        unfold occurrenceCode
        simp only [e1]
        rw [if_pos hlt, e2]
      simp only [hocc]
      split <;> rfl
    · have hocc : occurrenceCode today bd
          = some (PyDate.mk today.year bd.month bd.day) := by
        unfold occurrenceCode
        simp only [e1]
        rw [if_neg hlt]
      simp only [hocc]
      split <;> rfl

/-- The loop of the query cannot raise when every record is unproblematic. -/
theorem upcomingList_isSome (today : PyDate) (l : List (String × Record))
    (hg : l.all (fun kv => goodBirthday kv.2) = true)
    (hy1 : 1 ≤ today.year) (hy2 : today.year + 1 ≤ 9999) :
    (upcomingList today l).isSome = true := by
  induction l with
  | nil => rfl
  | cons kv t ih =>
    rw [List.all_cons, Bool.and_eq_true] at hg
    have hs := upcomingStep_isSome today kv.2 hg.1 hy1 hy2
    unfold upcomingList
    cases hstep : upcomingStep today kv.2 with
    | none => rw [hstep] at hs; simp at hs
    | some o =>
      cases o with
      | none => simp only [hstep]; exact ih hg.2
      | some c =>
        simp only [hstep]
        have ht := ih hg.2
        cases hl : upcomingList today t with
        | none => rw [hl] at ht; simp at ht
        | some l2 => simp [hl]

/--
C4 amended: the upcoming-birthday query is total for every directory whose
records have, if any, a valid stored birthday other than February 29, for
reference years from 1 to 9998; a February-29 birthday can make the
occurrence computation raise (see the counterexample).
-/
theorem C4_upcoming_total_without_feb29 (b : AddressBook) (today : PyDate)
    (hg : b.data.all (fun kv => goodBirthday kv.2) = true)
    (hy1 : 1 ≤ today.year) (hy2 : today.year + 1 ≤ 9999) :
    (b.get_upcoming_birthdays today).isSome = true :=
  upcomingList_isSome today b.data hg hy1 hy2

/-- C4 amended, instantiated at a concrete one-record book. -/
theorem C4_upcoming_total_without_feb29_witness :
    (AddressBook.get_upcoming_birthdays
        (AddressBook.mk [(("A"), Record.mk ("A") [] (some (PyDate.mk 1990 5 15)))])
        (PyDate.mk 2024 12 30)).isSome = true :=
  C4_upcoming_total_without_feb29
    (AddressBook.mk [(("A"), Record.mk ("A") [] (some (PyDate.mk 1990 5 15)))])
    (PyDate.mk 2024 12 30) (by decide) (by decide) (by decide)

/-- A successful date construction returns exactly the requested triple. -/
theorem mkValid_some (y m d : Nat) (x : PyDate) (h : mkValid y m d = some x) :
    x = PyDate.mk y m d := by
  unfold mkValid at h
  by_cases hv : validDate (PyDate.mk y m d) = true
  · rw [if_pos hv] at h
    injection h with h2
    exact h2.symm
  · rw [if_neg hv] at h
    exact absurd h (by simp)

/--
The replace-then-roll occurrence computation of the code coincides with the
specification's occurrence date.
-/
theorem occ_eq (today bday : PyDate) :
    occurrenceCode today bday = occurrenceSpec today bday := by
  unfold occurrenceCode occurrenceSpec
  have e0 : replaceYear bday today.year = mkValid today.year bday.month bday.day := rfl
  rw [e0]
  cases hm : mkValid today.year bday.month bday.day with
  | none => rfl
  | some occ =>
    have hocc := mkValid_some today.year bday.month bday.day occ hm
    subst hocc
    by_cases hlt : dateLt (PyDate.mk today.year bday.month bday.day) today = true
    · simp [hlt, replaceYear]
    · simp [hlt]

/-- Per record, the code's verdict coincides with the specification's. -/
theorem step_eq (today : PyDate) (r : Record) :
    upcomingStep today r = upcomingSpecStep today r := by
  cases hb : r.birthday with
  | none => simp [upcomingStep, upcomingSpecStep, hb]
  | some bday =>
    simp only [upcomingStep, upcomingSpecStep, hb, occ_eq]

/-- Over the record list, the code's result coincides with the spec's. -/
theorem list_eq (today : PyDate) (l : List (String × Record)) :
    upcomingList today l = upcomingSpecList today l := by
  induction l with
  | nil => rfl
  | cons kv t ih =>
    unfold upcomingList upcomingSpecList
    rw [step_eq, ih]

/--
C1: for every directory and reference date the query returns exactly the
records whose occurrence (birthday's month and day in the reference year,
rolled forward when already past) lies 0 to 7 days from the reference
date, formatted YYYY.MM.DD with the contact name, in insertion order — the
code-side translation equals the specification-side definition; moreover a
birthday 01.01.1990 at reference 30.12.2024 is included with occurrence
2025.01.01, an occurrence 8 days out is excluded, one 0 days out is
included, and a two-record book keeps insertion order rather than date
order.
-/
theorem C1_upcoming_birthdays_match_spec :
    (∀ (b : AddressBook) (today : PyDate),
      b.get_upcoming_birthdays today = b.upcomingBirthdaysSpec today) ∧
    AddressBook.get_upcoming_birthdays
        (AddressBook.mk [(("X"), Record.mk ("X") [] (some (PyDate.mk 1990 1 1)))])
        (PyDate.mk 2024 12 30)
      = some [Congrat.mk ("X") ("2025.01.01")] ∧
    AddressBook.get_upcoming_birthdays
        (AddressBook.mk [(("Y"), Record.mk ("Y") [] (some (PyDate.mk 1990 1 7)))])
        (PyDate.mk 2024 12 30)
      = some [] ∧
    AddressBook.get_upcoming_birthdays
        (AddressBook.mk [(("Z"), Record.mk ("Z") [] (some (PyDate.mk 1990 12 30)))])
        (PyDate.mk 2024 12 30)
      = some [Congrat.mk ("Z") ("2024.12.30")] ∧
    AddressBook.get_upcoming_birthdays
        (AddressBook.mk
          [(("A"), Record.mk ("A") [] (some (PyDate.mk 1990 1 5))),
           (("B"), Record.mk ("B") [] (some (PyDate.mk 1990 1 1)))])
        (PyDate.mk 2024 12 30)
      = some [Congrat.mk ("A") ("2025.01.05"), Congrat.mk ("B") ("2025.01.01")] := by
  refine ⟨?_, by decide, by decide, by decide, by decide⟩
  intro b today
  exact list_eq today b.data
